import Mathlib

/-!
Verification of the Lua asset-binding layer (StarLuaAssetBindings.cpp) and of
the ImGui end-stack shadow tracker table (imgui_iterator.inl).

The content store is shared through `shared_ptr`-like handles, so the state
model carries an explicit heap of stores addressed by numeric ids: copying a
handle copies the id, and two handles with the same id alias one store.
Byte buffers in the bindings always originate from a `Star::String`'s UTF-8
data and are read back with `String(bytes.ptr(), bytes.size())`; since UTF-8
encoding is injective, byte payloads are represented here by their decoded
string.
-/

set_option maxRecDepth 16384

namespace SB

/-- Modelled from the spec: the image codec collaborator's decoded image
(`decode(bytes) -> image or DecodeError`); the native `Star::Image` class is
not part of the sources under verification, only its `width`/`height`
accessors are used by the bindings. -/
structure Image where
  width : Nat
  height : Nat
  data : List Nat
deriving DecidableEq, Repr

/-- A runtime content entry: `path -> {kind: bytes | image, payload}`. -/
inductive Entry where
  | bytes (b : String)
  | image (i : Image)
deriving DecidableEq, Repr

/-- Contents of one `MemoryAssetSource`: a path-keyed association list. -/
def Store := List (String × Entry)
deriving DecidableEq

/-- Modelled from the spec: `MemoryAssetSource` lookup (the class itself is
not under the verified sources; spec 4.5: `get(path) -> bytes|image option`). -/
def Store.lookup : Store → String → Option Entry
  | [], _ => none
  | (k, e) :: r, p => if k = p then some e else Store.lookup r p

/-- Modelled from the spec: `MemoryAssetSource::set(path, bytes|image)`,
inserting or overwriting the entry at `path` (spec 4.5). -/
def Store.set : Store → String → Entry → Store
  | [], p, e => [(p, e)]
  | (k, v) :: r, p, e => if k = p then (p, e) :: r else (k, v) :: Store.set r p e

/-- Modelled from the spec: `MemoryAssetSource::contains`, a pure boolean
probe (spec 4.5). -/
def Store.containsP (st : Store) (p : String) : Bool :=
  (Store.lookup st p).isSome

/-- Modelled from the spec: `MemoryAssetSource::image(path) -> image option`,
only meaningful for image entries (spec 4.5). -/
def Store.image (st : Store) (p : String) : Option Image :=
  match Store.lookup st p with
  | some (Entry.image i) => some i
  | _ => none

/-- Modelled from the spec: `MemoryAssetSource::erase(path) -> bool`
reporting whether an entry existed (spec 4.5). -/
def Store.erase : Store → String → Bool × Store
  | [], _ => (false, [])
  | (k, v) :: r, p =>
    if k = p then (true, r)
    else
      let er := Store.erase r p
      (er.1, (k, v) :: er.2)

/-- `Star::String::beginsWith`: UTF-8 prefix test (the `Star::String` class is
an external collaborator; on the character level a prefix of the character
sequence is exactly a prefix of the UTF-8 byte sequence). -/
def beginsWith (s p : String) : Bool :=
  p.data.isPrefixOf s.data

/-- Global state of the binding layer: a heap of stores addressed by id
(modelling `shared_ptr` aliasing), the function-local static
`tempSource`/`initialized` pair of `getTemporaryAssetSource` (`none` while
uninitialized), and the content-resolution registry filled by
`Assets::addRuntimeSource` (keyed by mount point, re-adding supersedes). -/
structure GState where
  nextId : Nat
  heap : List (Nat × Store)
  tempStatic : Option Nat
  runtimeSources : List (String × Nat)
deriving DecidableEq

/-- Read the store a handle id points at. -/
def heapGet (h : List (Nat × Store)) (id : Nat) : Store :=
  match h with
  | [] => []
  | (k, s) :: r => if k = id then s else heapGet r id

/-- Write back the store a handle id points at. -/
def heapSet (h : List (Nat × Store)) (id : Nat) (s : Store) : List (Nat × Store) :=
  match h with
  | [] => [(id, s)]
  | (k, v) :: r => if k = id then (id, s) :: r else (k, v) :: heapSet r id s

/-- Modelled from the spec: `Assets::addRuntimeSource(mountPoint, source)`;
idempotent, re-invoking with the same mount point supersedes the prior
handle (spec 6). -/
def addRuntimeSource (src : List (String × Nat)) (mount : String) (id : Nat) :
    List (String × Nat) :=
  match src with
  | [] => [(mount, id)]
  | (k, v) :: r =>
    if k = mount then (mount, id) :: r else (k, v) :: addRuntimeSource r mount id

/-- `getTemporaryAssetSource()` from StarLuaAssetBindings.cpp: on first use it
constructs a fresh empty `MemoryAssetSource`, registers it with the Assets
system under mount point "/temp" and caches it in the function-local static;
afterwards it returns a copy of the cached shared handle. The C++ function
returns `MemoryAssetSourcePtr` BY VALUE. -/
def getTemporaryAssetSource (g : GState) : Nat × GState :=
  match g.tempStatic with
  | some id => (id, g)
  | none =>
    let id := g.nextId
    (id, { nextId := id + 1,
           heap := (id, ([] : Store)) :: g.heap,
           tempStatic := some id,
           runtimeSources := addRuntimeSource g.runtimeSources ("/temp") id })

/-- The store currently cached in the static handle (empty if uninitialized):
the store every read/query callback consults. -/
def tempStore (g : GState) : Store :=
  match g.tempStatic with
  | some id => heapGet g.heap id
  | none => []

/-- Modelled from the spec: the script value domain of the engine's
value-conversion interface (the engine itself is an external collaborator;
spec 4.1). Images arrive as opaque userdata handles. -/
inductive LuaValue where
  | nil
  | boolean (b : Bool)
  | num (n : Int)
  | str (s : String)
  | img (i : Image)
  | table (fields : List (String × LuaValue))

/-- Modelled from the spec: canonical structured-data (JSON) values of the
external `Star::Json` collaborator. Numbers are restricted to integers
(floating point is out of scope). -/
inductive Json where
  | null
  | boolean (b : Bool)
  | num (n : Int)
  | str (s : String)
  | arr (xs : List Json)
  | obj (fields : List (String × Json))

/-- Escape a character for a JSON string literal. -/
def jsonEscapeChar (c : Char) : String :=
  if c.toNat = 34 then "\\\""
  else if c.toNat = 92 then "\\\\"
  else String.singleton c

/-- Escape a JSON string body. -/
def jsonEscape (s : String) : String :=
  String.join (s.data.map jsonEscapeChar)

mutual
/-- Modelled from the spec: `Json::repr()`, the canonical compact textual
representation of a structured-data value (spec 4.4, dispatch fallback). -/
def Json.repr : Json → String
  | Json.null => "null"
  | Json.boolean true => "true"
  | Json.boolean false => "false"
  | Json.num n => toString n
  | Json.str s => "\"" ++ jsonEscape s ++ "\""
  | Json.arr xs => "[" ++ Json.reprList xs ++ "]"
  | Json.obj fs => "\x7b" ++ Json.reprFields fs ++ "\x7d"

/-- Comma-separated representations of array elements. -/
def Json.reprList : List Json → String
  | [] => ""
  | [j] => Json.repr j
  | j :: r => Json.repr j ++ "," ++ Json.reprList r

/-- Comma-separated representations of object fields. -/
def Json.reprFields : List (String × Json) → String
  | [] => ""
  | [(k, j)] => "\"" ++ jsonEscape k ++ "\":" ++ Json.repr j
  | (k, j) :: r => "\"" ++ jsonEscape k ++ "\":" ++ Json.repr j ++ "," ++ Json.reprFields r
end

/-- Modelled from the spec: the engine's non-throwing probe
`luaMaybeTo<String>`; for string types it accepts the script's native string
representation (spec 4.1, never coercing across incompatible types). -/
def luaMaybeToString : LuaValue → Option String
  | LuaValue.str s => some s
  | _ => none

/-- Modelled from the spec: the engine's non-throwing probe
`luaMaybeTo<Image>`, accepting only the opaque image userdata handle. -/
def luaMaybeToImage : LuaValue → Option Image
  | LuaValue.img i => some i
  | _ => none

mutual
/-- Modelled from the spec: the engine's throwing conversion `luaTo<Json>`,
serializing a script value to structured data; opaque userdata handles have
no structured-data form and the conversion fails on them. -/
def luaToJson : LuaValue → Except String Json
  | LuaValue.nil => Except.ok Json.null
  | LuaValue.boolean b => Except.ok (Json.boolean b)
  | LuaValue.num n => Except.ok (Json.num n)
  | LuaValue.str s => Except.ok (Json.str s)
  | LuaValue.img _ => Except.error ("cannot convert userdata to json")
  | LuaValue.table fs => Except.map Json.obj (luaFieldsToJson fs)

/-- Convert table fields, failing if any value fails. -/
def luaFieldsToJson : List (String × LuaValue) → Except String (List (String × Json))
  | [] => Except.ok []
  | (k, v) :: r =>
    match luaToJson v with
    | Except.error e => Except.error e
    | Except.ok j =>
      match luaFieldsToJson r with
      | Except.error e => Except.error e
      | Except.ok rest => Except.ok ((k, j) :: rest)
end

/-- The prefix-violation message of `makeAsset`/`makeAssetFromBytes`
(`strf("Temporary asset path must start with '/temp/', got: {}", path)`). -/
def tempAssetPathErr (path : String) : String :=
  "Temporary asset path must start with \x27/temp/\x27, got: " ++ path

/-- The prefix-violation message of `makeImageFromBytes`
(`strf("Temporary image path must start with '/temp/', got: {}", path)`). -/
def tempImagePathErr (path : String) : String :=
  "Temporary image path must start with \x27/temp/\x27, got: " ++ path

/-- The entry stored by `makeAsset`'s type-directed dispatch: probe the value
as a native string first, then as a native image, else serialize it to its
structured-data textual representation (lines 49-63 of the source). -/
def makeAssetEntry (data : LuaValue) : Except String Entry :=
  match luaMaybeToString data with
  | some s => Except.ok (Entry.bytes s)
  | none =>
    match luaMaybeToImage data with
    | some i => Except.ok (Entry.image i)
    | none =>
      match luaToJson data with
      | Except.error e => Except.error e
      | Except.ok j => Except.ok (Entry.bytes (Json.repr j))

/-- The tail shared by all three creation callbacks: `tempSource->set(path, …)`
followed by `assets->addRuntimeSource("/temp", tempSource)` on the same
shared handle. -/
def storeAndRegister (g : GState) (id : Nat) (path : String) (e : Entry) : GState :=
  { g with heap := heapSet g.heap id (Store.set (heapGet g.heap id) path e),
           runtimeSources := addRuntimeSource g.runtimeSources ("/temp") id }

/-- `makeAsset` callback (lines 42-70): validate the "/temp/" prefix before
any side effect, then fetch the shared store (lazily initializing it), store
the dispatched entry, re-register the store under "/temp", and return the
path. A conversion failure propagates as an error after the lazy
initialization already happened. -/
def makeAsset (g : GState) (path : String) (data : LuaValue) :
    Except String String × GState :=
  if ¬ beginsWith path ("/temp/") then
    (Except.error (tempAssetPathErr path), g)
  else
    let p := getTemporaryAssetSource g
    match makeAssetEntry data with
    | Except.error e => (Except.error e, p.2)
    | Except.ok entry => (Except.ok path, storeAndRegister p.2 p.1 path entry)

/-- `makeAssetFromBytes` callback (lines 72-88): same prefix validation, then
store the string's UTF-8 bytes verbatim and re-register the store. -/
def makeAssetFromBytes (g : GState) (path bytes : String) :
    Except String String × GState :=
  if ¬ beginsWith path ("/temp/") then
    (Except.error (tempAssetPathErr path), g)
  else
    let p := getTemporaryAssetSource g
    (Except.ok path, storeAndRegister p.2 p.1 path (Entry.bytes bytes))

/-- Failure modes of the external `Image::readPng` decoder: a
`StarException`-derived error (rethrown unchanged by the catch clauses of
`makeImageFromBytes`) or another `std::exception` (wrapped). -/
inductive DecodeErr where
  | star (msg : String)
  | std (msg : String)

/-- The zero-area decode failure message of `makeImageFromBytes`
(`strf("Failed to load image: resulted in 0x0 size. Data size: {} bytes", n)`
where `n` is the input byte count). -/
def zeroAreaErr (byteCount : Nat) : String :=
  "Failed to load image: resulted in 0x0 size. Data size: " ++ toString byteCount ++ " bytes"

/-- `makeImageFromBytes` callback (lines 90-125), parameterized by the
external decoder `readPng`: validate the prefix, decode, reject zero-area
results with a byte-count error before touching the store, else store the
image and re-register. Note the store is only fetched (and lazily
initialized) after the zero-area check, so every failure leaves the state
untouched. -/
def makeImageFromBytes (readPng : String → Except DecodeErr Image)
    (g : GState) (path bytes : String) : Except String String × GState :=
  if ¬ beginsWith path ("/temp/") then
    (Except.error (tempImagePathErr path), g)
  else
    match readPng bytes with
    | Except.error (DecodeErr.star m) => (Except.error m, g)
    | Except.error (DecodeErr.std m) =>
      (Except.error ("Failed to create image from bytes: " ++ m), g)
    | Except.ok image =>
      if image.width = 0 ∨ image.height = 0 then
        (Except.error (zeroAreaErr bytes.utf8ByteSize), g)
      else
        let p := getTemporaryAssetSource g
        (Except.ok path, storeAndRegister p.2 p.1 path (Entry.image image))

/-- `getTemporaryAsset` callback (lines 127-133), parameterized by the
external byte serialization the store's `read` uses for image entries: if
the store contains the path, return the stored bytes as a string, else an
absent value; the callback is total, no error path exists. -/
def getTemporaryAsset (imageBytes : Image → String) (g : GState) (path : String) :
    Option String × GState :=
  let p := getTemporaryAssetSource g
  if Store.containsP (heapGet p.2.heap p.1) path then
    match Store.lookup (heapGet p.2.heap p.1) path with
    | some (Entry.bytes b) => (some b, p.2)
    | some (Entry.image i) => (some (imageBytes i), p.2)
    | none => (none, p.2)
  else
    (none, p.2)

/-- `getTemporaryImage` callback (lines 135-142): the store's image lookup,
or an absent value; total, no error path exists. -/
def getTemporaryImage (g : GState) (path : String) : Option Image × GState :=
  let p := getTemporaryAssetSource g
  match Store.image (heapGet p.2.heap p.1) path with
  | some i => (some i, p.2)
  | none => (none, p.2)

/-- `hasTemporaryAsset` callback (lines 144-147): a pure containment probe on
the shared store. -/
def hasTemporaryAsset (g : GState) (path : String) : Bool × GState :=
  let p := getTemporaryAssetSource g
  (Store.containsP (heapGet p.2.heap p.1) path, p.2)

/-- `removeTemporaryAsset` callback (lines 149-153): erase the entry (the log
side effect on an actual erase is not modelled). -/
def removeTemporaryAsset (g : GState) (path : String) : GState :=
  let p := getTemporaryAssetSource g
  let er := Store.erase (heapGet p.2.heap p.1) path
  { p.2 with heap := heapSet p.2.heap p.1 er.2 }

/-- `clearTemporaryAssets` callback (lines 156-165): it constructs a fresh
empty `MemoryAssetSource` and executes `getTemporaryAssetSource() = newSource`.
`getTemporaryAssetSource` returns its `shared_ptr` BY VALUE, so this
assignment retargets a discarded temporary copy of the handle: the
function-local static keeps pointing at the old store, and no
`addRuntimeSource` call happens either. The only lasting effects are the
fresh unreferenced store allocation and, on a cold start, the lazy
initialization performed by the call itself. -/
def clearTemporaryAssets (g : GState) : GState :=
  let newId := g.nextId
  let g1 : GState := { g with nextId := newId + 1, heap := (newId, ([] : Store)) :: g.heap }
  let p := getTemporaryAssetSource g1
  p.2

/-- The pristine process state: nothing allocated, static uninitialized. -/
def g0 : GState := { nextId := 0, heap := [], tempStatic := none, runtimeSources := [] }

lemma lookup_set_self (st : Store) (p : String) (e : Entry) :
    Store.lookup (Store.set st p e) p = some e := by
  induction st with
  | nil => simp [Store.set, Store.lookup]
  | cons kv r ih =>
    obtain ⟨k, v⟩ := kv
    by_cases h : k = p <;> simp [Store.set, Store.lookup, h, ih]

lemma heapGet_heapSet_self (h : List (Nat × Store)) (id : Nat) (s : Store) :
    heapGet (heapSet h id s) id = s := by
  induction h with
  | nil => simp [heapSet, heapGet]
  | cons kv r ih =>
    obtain ⟨k, v⟩ := kv
    by_cases hk : k = id <;> simp [heapSet, heapGet, hk, ih]

lemma getTAS_static (g : GState) :
    (getTemporaryAssetSource g).2.tempStatic = some (getTemporaryAssetSource g).1 := by
  cases hg : g.tempStatic <;> simp [getTemporaryAssetSource, hg]

lemma getTAS_of_static (g : GState) (id : Nat) (h : g.tempStatic = some id) :
    getTemporaryAssetSource g = (id, g) := by
  simp [getTemporaryAssetSource, h]

lemma storeAndRegister_static (g : GState) (id : Nat) (path : String) (e : Entry) :
    (storeAndRegister g id path e).tempStatic = g.tempStatic := rfl

lemma tempStore_of_static (g : GState) (id : Nat) (h : g.tempStatic = some id) :
    tempStore g = heapGet g.heap id := by
  simp [tempStore, h]

lemma tempStore_storeAndRegister (g : GState) (id : Nat) (path : String) (e : Entry)
    (h : g.tempStatic = some id) :
    tempStore (storeAndRegister g id path e) = Store.set (heapGet g.heap id) path e := by
  rw [tempStore_of_static _ id (by rw [storeAndRegister_static]; exact h)]
  simp [storeAndRegister, heapGet_heapSet_self]

lemma hasTemporaryAsset_eq (g : GState) (id : Nat) (path : String)
    (h : g.tempStatic = some id) :
    hasTemporaryAsset g path = (Store.containsP (heapGet g.heap id) path, g) := by
  simp [hasTemporaryAsset, getTAS_of_static g id h]

lemma makeAsset_ok (g : GState) (path : String) (data : LuaValue) (e : Entry)
    (hp : beginsWith path ("/temp/") = true) (he : makeAssetEntry data = Except.ok e) :
    makeAsset g path data =
      (Except.ok path,
       storeAndRegister (getTemporaryAssetSource g).2 (getTemporaryAssetSource g).1 path e) := by
  simp [makeAsset, hp, he]

lemma makeAssetFromBytes_ok (g : GState) (path bytes : String)
    (hp : beginsWith path ("/temp/") = true) :
    makeAssetFromBytes g path bytes =
      (Except.ok path,
       storeAndRegister (getTemporaryAssetSource g).2 (getTemporaryAssetSource g).1 path
         (Entry.bytes bytes)) := by
  simp [makeAssetFromBytes, hp]

lemma lookup_tempStore_make (g : GState) (path : String) (e : Entry) :
    Store.lookup
      (tempStore (storeAndRegister (getTemporaryAssetSource g).2 (getTemporaryAssetSource g).1 path e))
      path = some e := by
  rw [tempStore_storeAndRegister _ _ _ _ (getTAS_static g), lookup_set_self]

lemma hasTemporaryAsset_after_make (g : GState) (path : String) (e : Entry) :
    (hasTemporaryAsset
       (storeAndRegister (getTemporaryAssetSource g).2 (getTemporaryAssetSource g).1 path e)
       path).1 = true := by
  rw [hasTemporaryAsset_eq _ (getTemporaryAssetSource g).1 path
        (by rw [storeAndRegister_static]; exact getTAS_static g)]
  simp [storeAndRegister, heapGet_heapSet_self, Store.containsP, lookup_set_self]

/-- C1: the claim says that after `clearTemporaryAssets()` the store is
atomically replaced by a fresh empty store, re-registered, and
`hasTemporaryAsset` returns false for every previously set path. The code
assigns the fresh store to the BY-VALUE return of `getTemporaryAssetSource()`,
a discarded temporary copy of the shared handle, so the static store keeps
all entries: starting from the pristine state, after
`makeAssetFromBytes("/temp/x", "hello")` and then `clearTemporaryAssets()`,
`hasTemporaryAsset("/temp/x")` still returns true, `getTemporaryAsset`
still reads back "hello", and the static handle is unchanged — matching the
source's own TODO note that temp assets are not being cleared. -/
theorem clearTemporaryAssets_not_cleared :
    (makeAssetFromBytes g0 ("/temp/x") ("hello")).1 = Except.ok ("/temp/x") ∧
    (hasTemporaryAsset (makeAssetFromBytes g0 ("/temp/x") ("hello")).2 ("/temp/x")).1 = true ∧
    (hasTemporaryAsset (clearTemporaryAssets (makeAssetFromBytes g0 ("/temp/x") ("hello")).2)
       ("/temp/x")).1 = true ∧
    (getTemporaryAsset (fun _ => "")
       (clearTemporaryAssets (makeAssetFromBytes g0 ("/temp/x") ("hello")).2)
       ("/temp/x")).1 = some ("hello") ∧
    (clearTemporaryAssets (makeAssetFromBytes g0 ("/temp/x") ("hello")).2).tempStatic =
      (makeAssetFromBytes g0 ("/temp/x") ("hello")).2.tempStatic :=
  ⟨rfl, by decide, by decide, by decide, by decide⟩

/-- C2: a destination path that does not begin with "/temp/" makes
`makeAsset`, `makeAssetFromBytes` and `makeImageFromBytes` raise the
descriptive error naming the required prefix and the offending path (the
message is exactly the required-prefix text followed by the path) while the
whole state — store included — is left unchanged; for a "/temp/"-prefixed
path, `makeAsset` succeeds (whenever the value admits a stored entry, which
covers every string, image, and structured-data-convertible value) and
`hasTemporaryAsset` of that path subsequently returns true. -/
theorem make_callbacks_path_validation
    (readPng : String → Except DecodeErr Image) (g : GState)
    (path bytes : String) (data : LuaValue) :
    (beginsWith path ("/temp/") = false →
      makeAsset g path data = (Except.error (tempAssetPathErr path), g) ∧
      makeAssetFromBytes g path bytes = (Except.error (tempAssetPathErr path), g) ∧
      makeImageFromBytes readPng g path bytes = (Except.error (tempImagePathErr path), g)) ∧
    (beginsWith path ("/temp/") = true →
      ∀ e, makeAssetEntry data = Except.ok e →
        (makeAsset g path data).1 = Except.ok path ∧
        (hasTemporaryAsset (makeAsset g path data).2 path).1 = true) := by
  constructor
  · intro h
    refine ⟨?_, ?_, ?_⟩ <;> simp [makeAsset, makeAssetFromBytes, makeImageFromBytes, h]
  · intro h e he
    rw [makeAsset_ok g path data e h he]
    exact ⟨rfl, hasTemporaryAsset_after_make g path e⟩

/-- Witness for C2 at concrete inputs: the invalid path "/other/x" yields the
exact error and unchanged state for all three callbacks, and the valid path
"/temp/x" with the string value "v" succeeds and becomes queryable. -/
theorem make_callbacks_path_validation_witness :
    (makeAsset g0 ("/other/x") (LuaValue.str ("v")) =
       (Except.error (tempAssetPathErr ("/other/x")), g0) ∧
     makeAssetFromBytes g0 ("/other/x") ("b") =
       (Except.error (tempAssetPathErr ("/other/x")), g0) ∧
     makeImageFromBytes (fun _ => Except.error (DecodeErr.std ("x"))) g0 ("/other/x") ("b") =
       (Except.error (tempImagePathErr ("/other/x")), g0)) ∧
    ((makeAsset g0 ("/temp/x") (LuaValue.str ("v"))).1 = Except.ok ("/temp/x") ∧
     (hasTemporaryAsset (makeAsset g0 ("/temp/x") (LuaValue.str ("v"))).2 ("/temp/x")).1 = true) := by
  constructor
  · exact (make_callbacks_path_validation (fun _ => Except.error (DecodeErr.std ("x")))
      g0 ("/other/x") ("b") (LuaValue.str ("v"))).1 (by decide)
  · exact (make_callbacks_path_validation (fun _ => Except.error (DecodeErr.std ("x")))
      g0 ("/temp/x") ("b") (LuaValue.str ("v"))).2 (by decide) (Entry.bytes ("v")) rfl

/-- C3: `makeAsset`'s dispatch probes the value in a fixed order with first
match winning — native string first (raw bytes stored), then native image,
then the structured-data fallback whose canonical textual representation is
stored as bytes — and returns the destination path. A native string value
also admits the fallback serialization, yet the first branch applies to it
unconditionally, so a value matching both the string and fallback paths is
always handled via the string path. -/
theorem makeAsset_dispatch_order (g : GState) (path : String) (v : LuaValue)
    (hp : beginsWith path ("/temp/") = true) :
    (∀ s, luaMaybeToString v = some s →
      (makeAsset g path v).1 = Except.ok path ∧
      Store.lookup (tempStore (makeAsset g path v).2) path = some (Entry.bytes s)) ∧
    (∀ i, luaMaybeToString v = none → luaMaybeToImage v = some i →
      (makeAsset g path v).1 = Except.ok path ∧
      Store.lookup (tempStore (makeAsset g path v).2) path = some (Entry.image i)) ∧
    (∀ j, luaMaybeToString v = none → luaMaybeToImage v = none →
        luaToJson v = Except.ok j →
      (makeAsset g path v).1 = Except.ok path ∧
      Store.lookup (tempStore (makeAsset g path v).2) path =
        some (Entry.bytes (Json.repr j))) := by
  refine ⟨fun s hs => ?_, fun i hs hi => ?_, fun j hs hi hj => ?_⟩
  · rw [makeAsset_ok g path v (Entry.bytes s) hp (by simp [makeAssetEntry, hs])]
    exact ⟨rfl, lookup_tempStore_make g path _⟩
  · rw [makeAsset_ok g path v (Entry.image i) hp (by simp [makeAssetEntry, hs, hi])]
    exact ⟨rfl, lookup_tempStore_make g path _⟩
  · rw [makeAsset_ok g path v (Entry.bytes (Json.repr j)) hp
          (by simp [makeAssetEntry, hs, hi, hj])]
    exact ⟨rfl, lookup_tempStore_make g path _⟩

/-- Witness for C3 at concrete inputs: a string value is stored as its raw
bytes (even though it also serializes as structured data), an image value as
an image, and an integer through the fallback representation "3". -/
theorem makeAsset_dispatch_order_witness :
    ((makeAsset g0 ("/temp/a") (LuaValue.str ("x"))).1 = Except.ok ("/temp/a") ∧
     Store.lookup (tempStore (makeAsset g0 ("/temp/a") (LuaValue.str ("x"))).2) ("/temp/a") =
       some (Entry.bytes ("x"))) ∧
    ((makeAsset g0 ("/temp/a") (LuaValue.img (Image.mk 1 1 [7]))).1 = Except.ok ("/temp/a") ∧
     Store.lookup (tempStore (makeAsset g0 ("/temp/a") (LuaValue.img (Image.mk 1 1 [7]))).2)
       ("/temp/a") = some (Entry.image (Image.mk 1 1 [7]))) ∧
    ((makeAsset g0 ("/temp/a") (LuaValue.num 3)).1 = Except.ok ("/temp/a") ∧
     Store.lookup (tempStore (makeAsset g0 ("/temp/a") (LuaValue.num 3)).2) ("/temp/a") =
       some (Entry.bytes ("3"))) := by
  refine ⟨(makeAsset_dispatch_order g0 ("/temp/a") (LuaValue.str ("x")) (by decide)).1
            ("x") rfl,
          (makeAsset_dispatch_order g0 ("/temp/a") (LuaValue.img (Image.mk 1 1 [7]))
            (by decide)).2.1 (Image.mk 1 1 [7]) rfl rfl,
          ?_⟩
  have h := (makeAsset_dispatch_order g0 ("/temp/a") (LuaValue.num 3) (by decide)).2.2
    (Json.num 3) rfl rfl (by simp [luaToJson])
  have hr : Json.repr (Json.num 3) = "3" := by simp [Json.repr]; rfl
  rw [hr] at h
  exact h

/-- C4: for a path absent from the store, `getTemporaryAsset` and
`getTemporaryImage` both return an absent value (both callbacks are total
functions into option results — no error path exists); for a path present
with a bytes entry, `getTemporaryAsset` returns the stored bytes as a
string. The store consulted is the one the lazily-initialized static handle
points at, and `imageBytes` stands for the external byte serialization the
store applies to image entries on `read`. -/
theorem getTemporary_absent_or_bytes (imageBytes : Image → String) (g : GState)
    (path : String) :
    (Store.lookup (tempStore (getTemporaryAssetSource g).2) path = none →
      (getTemporaryAsset imageBytes g path).1 = none ∧
      (getTemporaryImage g path).1 = none) ∧
    (∀ b, Store.lookup (tempStore (getTemporaryAssetSource g).2) path =
        some (Entry.bytes b) →
      (getTemporaryAsset imageBytes g path).1 = some b) := by
  rw [tempStore_of_static _ (getTemporaryAssetSource g).1 (getTAS_static g)]
  constructor
  · intro h
    constructor
    · simp [getTemporaryAsset, Store.containsP, h]
    · simp [getTemporaryImage, Store.image, h]
  · intro b h
    simp [getTemporaryAsset, Store.containsP, h]

/-- Witness for C4 at concrete inputs: on the pristine state "/temp/x" is
absent and both reads return none; after `makeAssetFromBytes("/temp/x",
"hello")` the bytes entry reads back as "hello". -/
theorem getTemporary_absent_or_bytes_witness :
    ((getTemporaryAsset (fun _ => "") g0 ("/temp/x")).1 = none ∧
     (getTemporaryImage g0 ("/temp/x")).1 = none) ∧
    (getTemporaryAsset (fun _ => "") (makeAssetFromBytes g0 ("/temp/x") ("hello")).2
       ("/temp/x")).1 = some ("hello") := by
  constructor
  · exact (getTemporary_absent_or_bytes (fun _ => "") g0 ("/temp/x")).1 (by decide)
  · exact (getTemporary_absent_or_bytes (fun _ => "")
      (makeAssetFromBytes g0 ("/temp/x") ("hello")).2 ("/temp/x")).2 ("hello") (by decide)

/-- C5: with a valid path, if the external decoder yields an image of zero
width or zero height, `makeImageFromBytes` fails with the zero-area message
carrying the input byte count and leaves the entire state — hence the store —
unchanged (the store is not even fetched before the check); if the decoded
image has non-zero area, it is stored at the path and the call returns the
path. -/
theorem makeImageFromBytes_zero_area (readPng : String → Except DecodeErr Image)
    (g : GState) (path bytes : String) (img : Image)
    (hp : beginsWith path ("/temp/") = true) (hd : readPng bytes = Except.ok img) :
    ((img.width = 0 ∨ img.height = 0) →
      makeImageFromBytes readPng g path bytes =
        (Except.error (zeroAreaErr bytes.utf8ByteSize), g)) ∧
    (img.width ≠ 0 → img.height ≠ 0 →
      (makeImageFromBytes readPng g path bytes).1 = Except.ok path ∧
      Store.lookup (tempStore (makeImageFromBytes readPng g path bytes).2) path =
        some (Entry.image img)) := by
  constructor
  · intro h
    simp [makeImageFromBytes, hp, hd, h]
  · intro hw hh
    have hz : ¬ (img.width = 0 ∨ img.height = 0) := by
      intro h; rcases h with h | h; exact hw h; exact hh h
    have : makeImageFromBytes readPng g path bytes =
        (Except.ok path,
         storeAndRegister (getTemporaryAssetSource g).2 (getTemporaryAssetSource g).1 path
           (Entry.image img)) := by
      simp [makeImageFromBytes, hp, hd, hz]
    rw [this]
    exact ⟨rfl, lookup_tempStore_make g path _⟩

/-- Witness for C5 at concrete inputs: a decoder returning a 0x4 image on the
2-byte input "ab" produces exactly the zero-area error naming 2 bytes with
the state unchanged; a decoder returning a 1x2 image stores it and returns
the path. -/
theorem makeImageFromBytes_zero_area_witness :
    makeImageFromBytes (fun _ => Except.ok (Image.mk 0 4 [])) g0 ("/temp/i") ("ab") =
      (Except.error (zeroAreaErr 2), g0) ∧
    ((makeImageFromBytes (fun _ => Except.ok (Image.mk 1 2 [5])) g0 ("/temp/i") ("ab")).1 =
       Except.ok ("/temp/i") ∧
     Store.lookup
       (tempStore (makeImageFromBytes (fun _ => Except.ok (Image.mk 1 2 [5])) g0
          ("/temp/i") ("ab")).2) ("/temp/i") = some (Entry.image (Image.mk 1 2 [5]))) := by
  constructor
  · have h := (makeImageFromBytes_zero_area (fun _ => Except.ok (Image.mk 0 4 []))
      g0 ("/temp/i") ("ab") (Image.mk 0 4 []) (by decide) rfl).1 (Or.inl rfl)
    rw [h]
    have : ("ab" : String).utf8ByteSize = 2 := by decide
    rw [this]
  · exact (makeImageFromBytes_zero_area (fun _ => Except.ok (Image.mk 1 2 [5]))
      g0 ("/temp/i") ("ab") (Image.mk 1 2 [5]) (by decide) rfl).2
      (by decide) (by decide)

/-- C10: for any "/temp/"-prefixed path and any string, a successful
`makeAssetFromBytes` stores the string's bytes verbatim and
`getTemporaryAsset` of the same path reads them back unchanged as a present
value equal to the original string — the script-visible round trip. -/
theorem makeAssetFromBytes_roundTrip (imageBytes : Image → String) (g : GState)
    (path s : String) (hp : beginsWith path ("/temp/") = true) :
    (makeAssetFromBytes g path s).1 = Except.ok path ∧
    (getTemporaryAsset imageBytes (makeAssetFromBytes g path s).2 path).1 = some s := by
  rw [makeAssetFromBytes_ok g path s hp]
  refine ⟨rfl, ?_⟩
  have hst : (storeAndRegister (getTemporaryAssetSource g).2 (getTemporaryAssetSource g).1
      path (Entry.bytes s)).tempStatic = some (getTemporaryAssetSource g).1 := by
    rw [storeAndRegister_static]; exact getTAS_static g
  have hl := lookup_tempStore_make g path (Entry.bytes s)
  rw [tempStore_of_static _ _ hst] at hl
  simp [getTemporaryAsset, getTAS_of_static _ _ hst, Store.containsP, hl]

/-- Witness for C10 at a concrete input: "/temp/x" with payload "hello". -/
theorem makeAssetFromBytes_roundTrip_witness :
    (makeAssetFromBytes g0 ("/temp/x") ("hello")).1 = Except.ok ("/temp/x") ∧
    (getTemporaryAsset (fun _ => "") (makeAssetFromBytes g0 ("/temp/x") ("hello")).2
       ("/temp/x")).1 = some ("hello") :=
  makeAssetFromBytes_roundTrip (fun _ => "") g0 ("/temp/x") ("hello") (by decide)

end SB

namespace IGL

/-- The end-stack directive a binding in imgui_iterator.inl declares: nothing,
an unconditional `ADD_END_STACK(slot)`, a success-conditional
`IF_RET_ADD_END_STACK(slot)`, or a `POP_END_STACK(slot)`. -/
inductive EndStackEffect where
  | none
  | push (slot : Nat)
  | pushIfRet (slot : Nat)
  | pop (slot : Nat)
deriving DecidableEq, BEq, Repr

/-- One registered binding of the generated table: the script-visible function
name and its end-stack directive. -/
structure Binding where
  name : String
  endStack : EndStackEffect
deriving DecidableEq, Repr

/-- The complete registration table of imgui_iterator.inl: every
`IMGUI_FUNCTION(name) ... END_IMGUI_FUNC` block, in file order, with its
end-stack directive (or `.none` when the block declares none). -/
def imguiBindings : List Binding := [
  Binding.mk ("EndFrame") (EndStackEffect.pop 0),
  Binding.mk ("ShowDemoWindow") EndStackEffect.none,
  Binding.mk ("ShowMetricsWindow") EndStackEffect.none,
  Binding.mk ("ShowDebugLogWindow") EndStackEffect.none,
  Binding.mk ("ShowIDStackToolWindow") EndStackEffect.none,
  Binding.mk ("ShowAboutWindow") EndStackEffect.none,
  Binding.mk ("ShowStyleSelector") EndStackEffect.none,
  Binding.mk ("ShowFontSelector") EndStackEffect.none,
  Binding.mk ("ShowUserGuide") EndStackEffect.none,
  Binding.mk ("GetVersion") EndStackEffect.none,
  Binding.mk ("Begin") (EndStackEffect.pushIfRet 1),
  Binding.mk ("End") (EndStackEffect.pop 1),
  Binding.mk ("BeginChild") (EndStackEffect.pushIfRet 2),
  Binding.mk ("BeginChild_4") (EndStackEffect.pushIfRet 2),
  Binding.mk ("EndChild") (EndStackEffect.pop 2),
  Binding.mk ("IsWindowAppearing") EndStackEffect.none,
  Binding.mk ("IsWindowCollapsed") EndStackEffect.none,
  Binding.mk ("IsWindowFocused") EndStackEffect.none,
  Binding.mk ("IsWindowHovered") EndStackEffect.none,
  Binding.mk ("GetWindowPos") EndStackEffect.none,
  Binding.mk ("GetWindowSize") EndStackEffect.none,
  Binding.mk ("GetWindowWidth") EndStackEffect.none,
  Binding.mk ("GetWindowHeight") EndStackEffect.none,
  Binding.mk ("SetNextWindowPos") EndStackEffect.none,
  Binding.mk ("SetNextWindowSize") EndStackEffect.none,
  Binding.mk ("SetNextWindowContentSize") EndStackEffect.none,
  Binding.mk ("SetNextWindowCollapsed") EndStackEffect.none,
  Binding.mk ("SetNextWindowFocus") EndStackEffect.none,
  Binding.mk ("SetNextWindowScroll") EndStackEffect.none,
  Binding.mk ("SetNextWindowBgAlpha") EndStackEffect.none,
  Binding.mk ("SetWindowPos") EndStackEffect.none,
  Binding.mk ("SetWindowSize") EndStackEffect.none,
  Binding.mk ("SetWindowCollapsed") EndStackEffect.none,
  Binding.mk ("SetWindowFocus") EndStackEffect.none,
  Binding.mk ("SetWindowFontScale") EndStackEffect.none,
  Binding.mk ("SetWindowPos_3") EndStackEffect.none,
  Binding.mk ("SetWindowSize_3") EndStackEffect.none,
  Binding.mk ("SetWindowCollapsed_3") EndStackEffect.none,
  Binding.mk ("SetWindowFocus_1") EndStackEffect.none,
  Binding.mk ("GetScrollX") EndStackEffect.none,
  Binding.mk ("GetScrollY") EndStackEffect.none,
  Binding.mk ("SetScrollX") EndStackEffect.none,
  Binding.mk ("SetScrollY") EndStackEffect.none,
  Binding.mk ("GetScrollMaxX") EndStackEffect.none,
  Binding.mk ("GetScrollMaxY") EndStackEffect.none,
  Binding.mk ("SetScrollHereX") EndStackEffect.none,
  Binding.mk ("SetScrollHereY") EndStackEffect.none,
  Binding.mk ("SetScrollFromPosX") EndStackEffect.none,
  Binding.mk ("SetScrollFromPosY") EndStackEffect.none,
  Binding.mk ("PopFont") EndStackEffect.none,
  Binding.mk ("PushStyleColor") EndStackEffect.none,
  Binding.mk ("PushStyleColor_2") EndStackEffect.none,
  Binding.mk ("PopStyleColor") EndStackEffect.none,
  Binding.mk ("PushStyleVar") (EndStackEffect.push 3),
  Binding.mk ("PushStyleVar_2") (EndStackEffect.push 3),
  Binding.mk ("PushStyleVarX") EndStackEffect.none,
  Binding.mk ("PushStyleVarY") EndStackEffect.none,
  Binding.mk ("PopStyleVar") (EndStackEffect.pop 3),
  Binding.mk ("PushItemFlag") EndStackEffect.none,
  Binding.mk ("PopItemFlag") EndStackEffect.none,
  Binding.mk ("PushItemWidth") EndStackEffect.none,
  Binding.mk ("PopItemWidth") EndStackEffect.none,
  Binding.mk ("SetNextItemWidth") EndStackEffect.none,
  Binding.mk ("CalcItemWidth") EndStackEffect.none,
  Binding.mk ("PushTextWrapPos") EndStackEffect.none,
  Binding.mk ("PopTextWrapPos") EndStackEffect.none,
  Binding.mk ("GetFontSize") EndStackEffect.none,
  Binding.mk ("GetFontTexUvWhitePixel") EndStackEffect.none,
  Binding.mk ("GetColorU32") EndStackEffect.none,
  Binding.mk ("GetColorU32_1") EndStackEffect.none,
  Binding.mk ("GetColorU32_2") EndStackEffect.none,
  Binding.mk ("GetCursorScreenPos") EndStackEffect.none,
  Binding.mk ("SetCursorScreenPos") EndStackEffect.none,
  Binding.mk ("GetContentRegionAvail") EndStackEffect.none,
  Binding.mk ("GetCursorPos") EndStackEffect.none,
  Binding.mk ("GetCursorPosX") EndStackEffect.none,
  Binding.mk ("GetCursorPosY") EndStackEffect.none,
  Binding.mk ("SetCursorPos") EndStackEffect.none,
  Binding.mk ("SetCursorPosX") EndStackEffect.none,
  Binding.mk ("SetCursorPosY") EndStackEffect.none,
  Binding.mk ("GetCursorStartPos") EndStackEffect.none,
  Binding.mk ("Separator") EndStackEffect.none,
  Binding.mk ("SameLine") EndStackEffect.none,
  Binding.mk ("NewLine") EndStackEffect.none,
  Binding.mk ("Spacing") EndStackEffect.none,
  Binding.mk ("Dummy") EndStackEffect.none,
  Binding.mk ("Indent") EndStackEffect.none,
  Binding.mk ("Unindent") EndStackEffect.none,
  Binding.mk ("BeginGroup") (EndStackEffect.push 4),
  Binding.mk ("EndGroup") (EndStackEffect.pop 4),
  Binding.mk ("AlignTextToFramePadding") EndStackEffect.none,
  Binding.mk ("GetTextLineHeight") EndStackEffect.none,
  Binding.mk ("GetTextLineHeightWithSpacing") EndStackEffect.none,
  Binding.mk ("GetFrameHeight") EndStackEffect.none,
  Binding.mk ("GetFrameHeightWithSpacing") EndStackEffect.none,
  Binding.mk ("PushID") EndStackEffect.none,
  Binding.mk ("PushID_2") EndStackEffect.none,
  Binding.mk ("PushID_1") EndStackEffect.none,
  Binding.mk ("PopID") EndStackEffect.none,
  Binding.mk ("GetID") EndStackEffect.none,
  Binding.mk ("GetID_2") EndStackEffect.none,
  Binding.mk ("GetID_1") EndStackEffect.none,
  Binding.mk ("TextUnformatted") EndStackEffect.none,
  Binding.mk ("Text") EndStackEffect.none,
  Binding.mk ("TextColored") EndStackEffect.none,
  Binding.mk ("TextDisabled") EndStackEffect.none,
  Binding.mk ("TextWrapped") EndStackEffect.none,
  Binding.mk ("LabelText") EndStackEffect.none,
  Binding.mk ("BulletText") EndStackEffect.none,
  Binding.mk ("SeparatorText") EndStackEffect.none,
  Binding.mk ("Button") EndStackEffect.none,
  Binding.mk ("SmallButton") EndStackEffect.none,
  Binding.mk ("InvisibleButton") EndStackEffect.none,
  Binding.mk ("ArrowButton") EndStackEffect.none,
  Binding.mk ("Checkbox") EndStackEffect.none,
  Binding.mk ("CheckboxFlags") EndStackEffect.none,
  Binding.mk ("CheckboxFlags_3") EndStackEffect.none,
  Binding.mk ("RadioButton") EndStackEffect.none,
  Binding.mk ("RadioButton_3") EndStackEffect.none,
  Binding.mk ("ProgressBar") EndStackEffect.none,
  Binding.mk ("Bullet") EndStackEffect.none,
  Binding.mk ("TextLink") EndStackEffect.none,
  Binding.mk ("TextLinkOpenURL") EndStackEffect.none,
  Binding.mk ("Image") EndStackEffect.none,
  Binding.mk ("ImageWithBg") EndStackEffect.none,
  Binding.mk ("ImageButton") EndStackEffect.none,
  Binding.mk ("BeginCombo") (EndStackEffect.pushIfRet 5),
  Binding.mk ("EndCombo") (EndStackEffect.pop 5),
  Binding.mk ("Combo") EndStackEffect.none,
  Binding.mk ("DragFloat") EndStackEffect.none,
  Binding.mk ("DragFloatRange2") EndStackEffect.none,
  Binding.mk ("DragInt") EndStackEffect.none,
  Binding.mk ("DragIntRange2") EndStackEffect.none,
  Binding.mk ("SliderFloat") EndStackEffect.none,
  Binding.mk ("SliderAngle") EndStackEffect.none,
  Binding.mk ("SliderInt") EndStackEffect.none,
  Binding.mk ("VSliderFloat") EndStackEffect.none,
  Binding.mk ("VSliderInt") EndStackEffect.none,
  Binding.mk ("InputFloat") EndStackEffect.none,
  Binding.mk ("InputInt") EndStackEffect.none,
  Binding.mk ("ColorButton") EndStackEffect.none,
  Binding.mk ("SetColorEditOptions") EndStackEffect.none,
  Binding.mk ("TreeNode") (EndStackEffect.pushIfRet 6),
  Binding.mk ("TreeNode_3") (EndStackEffect.pushIfRet 6),
  Binding.mk ("TreeNodeEx") EndStackEffect.none,
  Binding.mk ("TreeNodeEx_4") EndStackEffect.none,
  Binding.mk ("TreePush") (EndStackEffect.push 6),
  Binding.mk ("TreePop") (EndStackEffect.pop 6),
  Binding.mk ("GetTreeNodeToLabelSpacing") EndStackEffect.none,
  Binding.mk ("CollapsingHeader") EndStackEffect.none,
  Binding.mk ("CollapsingHeader_3") EndStackEffect.none,
  Binding.mk ("SetNextItemOpen") EndStackEffect.none,
  Binding.mk ("SetNextItemStorageID") EndStackEffect.none,
  Binding.mk ("Selectable") EndStackEffect.none,
  Binding.mk ("Selectable_4") EndStackEffect.none,
  Binding.mk ("IsItemToggledSelection") EndStackEffect.none,
  Binding.mk ("BeginListBox") (EndStackEffect.pushIfRet 7),
  Binding.mk ("EndListBox") (EndStackEffect.pop 7),
  Binding.mk ("Value") EndStackEffect.none,
  Binding.mk ("Value_2") EndStackEffect.none,
  Binding.mk ("Value_2_2") EndStackEffect.none,
  Binding.mk ("Value_3") EndStackEffect.none,
  Binding.mk ("BeginMenuBar") (EndStackEffect.pushIfRet 8),
  Binding.mk ("EndMenuBar") (EndStackEffect.pop 8),
  Binding.mk ("BeginMainMenuBar") (EndStackEffect.pushIfRet 9),
  Binding.mk ("EndMainMenuBar") (EndStackEffect.pop 9),
  Binding.mk ("BeginMenu") (EndStackEffect.pushIfRet 10),
  Binding.mk ("EndMenu") (EndStackEffect.pop 10),
  Binding.mk ("MenuItem") EndStackEffect.none,
  Binding.mk ("MenuItem_4") EndStackEffect.none,
  Binding.mk ("BeginTooltip") (EndStackEffect.pushIfRet 11),
  Binding.mk ("EndTooltip") (EndStackEffect.pop 11),
  Binding.mk ("SetTooltip") EndStackEffect.none,
  Binding.mk ("BeginItemTooltip") (EndStackEffect.pushIfRet 12),
  Binding.mk ("SetItemTooltip") EndStackEffect.none,
  Binding.mk ("BeginPopup") (EndStackEffect.pushIfRet 13),
  Binding.mk ("BeginPopupModal") (EndStackEffect.pushIfRet 13),
  Binding.mk ("EndPopup") (EndStackEffect.pop 13),
  Binding.mk ("OpenPopup") EndStackEffect.none,
  Binding.mk ("OpenPopup_2") EndStackEffect.none,
  Binding.mk ("OpenPopupOnItemClick") EndStackEffect.none,
  Binding.mk ("CloseCurrentPopup") EndStackEffect.none,
  Binding.mk ("BeginPopupContextItem") (EndStackEffect.pushIfRet 13),
  Binding.mk ("BeginPopupContextWindow") (EndStackEffect.pushIfRet 13),
  Binding.mk ("BeginPopupContextVoid") (EndStackEffect.pushIfRet 13),
  Binding.mk ("IsPopupOpen") EndStackEffect.none,
  Binding.mk ("BeginTable") (EndStackEffect.pushIfRet 14),
  Binding.mk ("EndTable") (EndStackEffect.pop 14),
  Binding.mk ("TableNextRow") EndStackEffect.none,
  Binding.mk ("TableNextColumn") EndStackEffect.none,
  Binding.mk ("TableSetColumnIndex") EndStackEffect.none,
  Binding.mk ("TableSetupColumn") EndStackEffect.none,
  Binding.mk ("TableSetupScrollFreeze") EndStackEffect.none,
  Binding.mk ("TableHeader") EndStackEffect.none,
  Binding.mk ("TableHeadersRow") EndStackEffect.none,
  Binding.mk ("TableAngledHeadersRow") EndStackEffect.none,
  Binding.mk ("TableGetColumnCount") EndStackEffect.none,
  Binding.mk ("TableGetColumnIndex") EndStackEffect.none,
  Binding.mk ("TableGetRowIndex") EndStackEffect.none,
  Binding.mk ("TableGetColumnName") EndStackEffect.none,
  Binding.mk ("TableGetColumnFlags") EndStackEffect.none,
  Binding.mk ("TableSetColumnEnabled") EndStackEffect.none,
  Binding.mk ("TableGetHoveredColumn") EndStackEffect.none,
  Binding.mk ("TableSetBgColor") EndStackEffect.none,
  Binding.mk ("Columns") EndStackEffect.none,
  Binding.mk ("NextColumn") EndStackEffect.none,
  Binding.mk ("GetColumnIndex") EndStackEffect.none,
  Binding.mk ("GetColumnWidth") EndStackEffect.none,
  Binding.mk ("SetColumnWidth") EndStackEffect.none,
  Binding.mk ("GetColumnOffset") EndStackEffect.none,
  Binding.mk ("SetColumnOffset") EndStackEffect.none,
  Binding.mk ("GetColumnsCount") EndStackEffect.none,
  Binding.mk ("BeginTabBar") (EndStackEffect.pushIfRet 15),
  Binding.mk ("EndTabBar") (EndStackEffect.pop 15),
  Binding.mk ("BeginTabItem") (EndStackEffect.pushIfRet 16),
  Binding.mk ("EndTabItem") (EndStackEffect.pop 16),
  Binding.mk ("TabItemButton") EndStackEffect.none,
  Binding.mk ("SetTabItemClosed") EndStackEffect.none,
  Binding.mk ("LogToTTY") EndStackEffect.none,
  Binding.mk ("LogToFile") EndStackEffect.none,
  Binding.mk ("LogToClipboard") EndStackEffect.none,
  Binding.mk ("LogFinish") EndStackEffect.none,
  Binding.mk ("LogButtons") EndStackEffect.none,
  Binding.mk ("LogText") EndStackEffect.none,
  Binding.mk ("BeginDragDropSource") (EndStackEffect.pushIfRet 17),
  Binding.mk ("EndDragDropSource") (EndStackEffect.pop 17),
  Binding.mk ("BeginDragDropTarget") (EndStackEffect.pushIfRet 18),
  Binding.mk ("EndDragDropTarget") (EndStackEffect.pop 18),
  Binding.mk ("BeginDisabled") (EndStackEffect.push 19),
  Binding.mk ("EndDisabled") (EndStackEffect.pop 19),
  Binding.mk ("PushClipRect") EndStackEffect.none,
  Binding.mk ("PopClipRect") EndStackEffect.none,
  Binding.mk ("SetItemDefaultFocus") EndStackEffect.none,
  Binding.mk ("SetKeyboardFocusHere") EndStackEffect.none,
  Binding.mk ("SetNavCursorVisible") EndStackEffect.none,
  Binding.mk ("SetNextItemAllowOverlap") EndStackEffect.none,
  Binding.mk ("IsItemHovered") EndStackEffect.none,
  Binding.mk ("IsItemActive") EndStackEffect.none,
  Binding.mk ("IsItemFocused") EndStackEffect.none,
  Binding.mk ("IsItemClicked") EndStackEffect.none,
  Binding.mk ("IsItemVisible") EndStackEffect.none,
  Binding.mk ("IsItemEdited") EndStackEffect.none,
  Binding.mk ("IsItemActivated") EndStackEffect.none,
  Binding.mk ("IsItemDeactivated") EndStackEffect.none,
  Binding.mk ("IsItemDeactivatedAfterEdit") EndStackEffect.none,
  Binding.mk ("IsItemToggledOpen") EndStackEffect.none,
  Binding.mk ("IsAnyItemHovered") EndStackEffect.none,
  Binding.mk ("IsAnyItemActive") EndStackEffect.none,
  Binding.mk ("IsAnyItemFocused") EndStackEffect.none,
  Binding.mk ("GetItemID") EndStackEffect.none,
  Binding.mk ("GetItemRectMin") EndStackEffect.none,
  Binding.mk ("GetItemRectMax") EndStackEffect.none,
  Binding.mk ("GetItemRectSize") EndStackEffect.none,
  Binding.mk ("IsRectVisible") EndStackEffect.none,
  Binding.mk ("IsRectVisible_2") EndStackEffect.none,
  Binding.mk ("GetTime") EndStackEffect.none,
  Binding.mk ("GetFrameCount") EndStackEffect.none,
  Binding.mk ("GetStyleColorName") EndStackEffect.none,
  Binding.mk ("CalcTextSize") EndStackEffect.none,
  Binding.mk ("ColorConvertU32ToFloat4") EndStackEffect.none,
  Binding.mk ("ColorConvertFloat4ToU32") EndStackEffect.none,
  Binding.mk ("IsKeyDown") EndStackEffect.none,
  Binding.mk ("IsKeyPressed") EndStackEffect.none,
  Binding.mk ("IsKeyReleased") EndStackEffect.none,
  Binding.mk ("GetKeyPressedAmount") EndStackEffect.none,
  Binding.mk ("GetKeyName") EndStackEffect.none,
  Binding.mk ("SetNextFrameWantCaptureKeyboard") EndStackEffect.none,
  Binding.mk ("SetItemKeyOwner") EndStackEffect.none,
  Binding.mk ("IsMouseDown") EndStackEffect.none,
  Binding.mk ("IsMouseClicked") EndStackEffect.none,
  Binding.mk ("IsMouseReleased") EndStackEffect.none,
  Binding.mk ("IsMouseDoubleClicked") EndStackEffect.none,
  Binding.mk ("IsMouseReleasedWithDelay") EndStackEffect.none,
  Binding.mk ("GetMouseClickedCount") EndStackEffect.none,
  Binding.mk ("IsMouseHoveringRect") EndStackEffect.none,
  Binding.mk ("IsAnyMouseDown") EndStackEffect.none,
  Binding.mk ("GetMousePos") EndStackEffect.none,
  Binding.mk ("GetMousePosOnOpeningCurrentPopup") EndStackEffect.none,
  Binding.mk ("IsMouseDragging") EndStackEffect.none,
  Binding.mk ("GetMouseDragDelta") EndStackEffect.none,
  Binding.mk ("ResetMouseDragDelta") EndStackEffect.none,
  Binding.mk ("GetMouseCursor") EndStackEffect.none,
  Binding.mk ("SetMouseCursor") EndStackEffect.none,
  Binding.mk ("SetNextFrameWantCaptureMouse") EndStackEffect.none,
  Binding.mk ("GetClipboardText") EndStackEffect.none,
  Binding.mk ("SetClipboardText") EndStackEffect.none,
  Binding.mk ("LoadIniSettingsFromDisk") EndStackEffect.none,
  Binding.mk ("SaveIniSettingsToDisk") EndStackEffect.none,
  Binding.mk ("DebugTextEncoding") EndStackEffect.none,
  Binding.mk ("DebugFlashStyleColor") EndStackEffect.none,
  Binding.mk ("DebugStartItemPicker") EndStackEffect.none,
  Binding.mk ("DebugLog") EndStackEffect.none
]

/-- The end-stack directive declared by the named binding (`.none` for an
unknown or directive-less name). -/
def effectOf (name : String) : EndStackEffect :=
  match imguiBindings.find? (fun b => b.name == name) with
  | some b => b.endStack
  | Option.none => EndStackEffect.none

/-- Modelled from the spec: the shadow end-stack update a directive performs
(the `ADD_END_STACK`/`IF_RET_ADD_END_STACK`/`POP_END_STACK` macro bodies are
not under the verified sources; spec 4.3). An unconditional push always
pushes its slot; a conditional push pushes exactly when the native call
returned true; a pop removes the top entry exactly when it matches the slot
(a mismatch or empty stack is a surfaced usage error leaving the stack
uncorrupted). -/
def applyEndStack (eff : EndStackEffect) (ret : Bool) (st : List Nat) : List Nat :=
  match eff with
  | EndStackEffect.none => st
  | EndStackEffect.push s => s :: st
  | EndStackEffect.pushIfRet s => if ret then s :: st else st
  | EndStackEffect.pop s =>
    match st with
    | [] => st
    | t :: r => if t = s then r else st

/-- The shadow-stack effect of one bound call: the named binding's directive
applied with the native call's boolean result. -/
def runCall (name : String) (ret : Bool) (st : List Nat) : List Nat :=
  applyEndStack (effectOf name) ret st

/-- Whether some registered opening binding can push this slot. -/
def slotPushable (slot : Nat) : Bool :=
  imguiBindings.any (fun b =>
    b.endStack == EndStackEffect.push slot || b.endStack == EndStackEffect.pushIfRet slot)

/-- Whether some registered closing binding pops this slot. -/
def slotPoppable (slot : Nat) : Bool :=
  imguiBindings.any (fun b => b.endStack == EndStackEffect.pop slot)

/-- The name of the registered closing binding popping the slot (empty string
when none exists). -/
def slotCloser (slot : Nat) : String :=
  match imguiBindings.find? (fun b => b.endStack == EndStackEffect.pop slot) with
  | some b => b.name
  | Option.none => ""

/-- Modelled from the spec: the transitions of the end-stack invariant
tracker (spec 4.3): `openScope slot uncond success`, `closeScope slot`, and
`forcedUnwindToDepth slot`. -/
inductive ScopeTransition where
  | openScope (slot : Nat) (uncond : Bool) (success : Bool)
  | closeScope (slot : Nat)
  | forcedUnwindToDepth (slot : Nat)

/-- Modelled from the spec: pop entries down to and including the first
matching slot from the top (spec 4.3, ForcedUnwindToDepth). -/
def unwindToDepth (slot : Nat) : List Nat → List Nat
  | [] => []
  | t :: r => if t = slot then r else unwindToDepth slot r

/-- Modelled from the spec: one tracker transition (spec 4.3). Opening pushes
the slot when the call is unconditional or reported success; closing pops the
top entry exactly when it matches; a mismatched or empty close is a surfaced
error leaving the stack uncorrupted. -/
def stepTransition (st : List Nat) : ScopeTransition → List Nat
  | ScopeTransition.openScope slot uncond success =>
    if uncond || success then slot :: st else st
  | ScopeTransition.closeScope slot =>
    match st with
    | [] => st
    | t :: r => if t = slot then r else st
  | ScopeTransition.forcedUnwindToDepth slot => unwindToDepth slot st

/-- The shadow stack after a transition sequence starting from the empty
stack of a fresh frame. -/
def runTransitions (ts : List ScopeTransition) : List Nat :=
  ts.foldl stepTransition []

/-- Modelled from the spec: `FrameBoundaryUnwind` (spec 4.3): force-pop every
still-open entry, invoking its slot's closing function, top of stack first;
returns the final stack and the invocation list in invocation order. -/
def frameBoundaryUnwind (closerOf : Nat → String) : List Nat → List Nat × List String
  | [] => ([], [])
  | t :: r =>
    let rest := frameBoundaryUnwind closerOf r
    (rest.1, closerOf t :: rest.2)

lemma frameBoundaryUnwind_eq (c : Nat → String) (st : List Nat) :
    frameBoundaryUnwind c st = ([], st.map c) := by
  induction st with
  | nil => rfl
  | cons t r ih => simp [frameBoundaryUnwind, ih]

/-- C6: per the registration table, the conditional scope openers `Begin`
(slot 1) and `TreeNode` (slot 6) push their slot exactly when the native
call returns true and push nothing on false; the unconditional openers
`BeginGroup` (slot 4) and `PushStyleVar` (slot 3) push on every call; and
the corresponding closers `End`, `TreePop`, `EndGroup` and `PopStyleVar` pop
that same slot. -/
theorem scope_directives_push_pop (st : List Nat) (r : Bool) :
    runCall ("Begin") true st = 1 :: st ∧
    runCall ("Begin") false st = st ∧
    runCall ("TreeNode") true st = 6 :: st ∧
    runCall ("TreeNode") false st = st ∧
    runCall ("BeginGroup") r st = 4 :: st ∧
    runCall ("PushStyleVar") r st = 3 :: st ∧
    runCall ("End") r (1 :: st) = st ∧
    runCall ("TreePop") r (6 :: st) = st ∧
    runCall ("EndGroup") r (4 :: st) = st ∧
    runCall ("PopStyleVar") r (3 :: st) = st := by
  have h1 : effectOf ("Begin") = EndStackEffect.pushIfRet 1 := by decide
  have h2 : effectOf ("TreeNode") = EndStackEffect.pushIfRet 6 := by decide
  have h3 : effectOf ("BeginGroup") = EndStackEffect.push 4 := by decide
  have h4 : effectOf ("PushStyleVar") = EndStackEffect.push 3 := by decide
  have h5 : effectOf ("End") = EndStackEffect.pop 1 := by decide
  have h6 : effectOf ("TreePop") = EndStackEffect.pop 6 := by decide
  have h7 : effectOf ("EndGroup") = EndStackEffect.pop 4 := by decide
  have h8 : effectOf ("PopStyleVar") = EndStackEffect.pop 3 := by decide
  simp [runCall, h1, h2, h3, h4, h5, h6, h7, h8, applyEndStack]

/-- C7: the claim says every bound call opening a native scope pushes a
matching shadow entry, naming the style-variable class and `TreeNodeEx`. In
the table, `PushStyleVar` and `PushStyleVar_2` carry the unconditional slot-3
push, but their siblings `PushStyleVarX` and `PushStyleVarY` — which invoke
the native style-variable push all the same — carry no directive at all, and
`TreeNodeEx` — whose native call opens a tree scope on true exactly like
`TreeNode` (the table's own comment on `TreePush` notes it is already called
by `TreeNode` when returning true) — carries none either: the shadow stack
stays unchanged across those calls. The bound `PopStyleVar`, whose native
call closes `count` scopes, pops a single slot-3 entry. -/
theorem styleVarX_treeNodeEx_untracked :
    effectOf ("PushStyleVarX") = EndStackEffect.none ∧
    effectOf ("PushStyleVarY") = EndStackEffect.none ∧
    effectOf ("TreeNodeEx") = EndStackEffect.none ∧
    effectOf ("TreeNodeEx_4") = EndStackEffect.none ∧
    effectOf ("PushStyleVar") = EndStackEffect.push 3 ∧
    effectOf ("PushStyleVar_2") = EndStackEffect.push 3 ∧
    effectOf ("TreeNode") = EndStackEffect.pushIfRet 6 ∧
    runCall ("PushStyleVarX") true [] = [] ∧
    runCall ("PushStyleVarY") true [] = [] ∧
    runCall ("TreeNodeEx") true [] = [] ∧
    runCall ("PopStyleVar") true [3, 3] = [3] := by decide

/-- C8: the claim says every slot some opening binding can push has a
registered closing binding popping it, naming slot 12. `BeginItemTooltip`
pushes slot 12 on success, but no binding in the whole table pops slot 12:
`EndTooltip` — which the table's own header comment designates as the call to
make when `BeginItemTooltip` returns true — pops slot 11 only, so an open
slot-12 scope can never be closed by a bound call. -/
theorem slot12_pushable_unpoppable :
    slotPushable 12 = true ∧
    slotPoppable 12 = false ∧
    effectOf ("BeginItemTooltip") = EndStackEffect.pushIfRet 12 ∧
    effectOf ("EndTooltip") = EndStackEffect.pop 11 := by decide

/-- C9: for any transition sequence interleaving opens, closes and forced
unwinds arbitrarily, `frameBoundaryUnwind` leaves the shadow stack empty and
its invocation list is exactly the slot-wise image of the still-open stack,
top first — every still-open entry's closing function is invoked exactly
once, in strict LIFO order. In particular, after `Begin` (conditional slot 1)
returning true and `TreeNode` (conditional slot 6) returning true with
neither close called, the unwind invokes the tree-node closer `TreePop` and
then the window closer `End`, in that order, ending with an empty stack (the
closers being the table's registered poppers of slots 6 and 1). -/
theorem frameBoundaryUnwind_balances (closerOf : Nat → String)
    (ts : List ScopeTransition) :
    frameBoundaryUnwind closerOf (runTransitions ts) =
      ([], (runTransitions ts).map closerOf) ∧
    runTransitions [ScopeTransition.openScope 1 false true,
                    ScopeTransition.openScope 6 false true] = [6, 1] ∧
    slotCloser 6 = ("TreePop") ∧
    slotCloser 1 = ("End") ∧
    frameBoundaryUnwind slotCloser [6, 1] = ([], [("TreePop"), ("End")]) := by
  refine ⟨frameBoundaryUnwind_eq closerOf _, rfl, by decide, by decide, by decide⟩

end IGL
